import Mathlib

/-!
Shallow embedding of the router-centric agent state machine of
`src/agent_nodes.py` and `src/agent.py` (the LangGraph implementation).

The language-model calls and the retrieval backends are opaque external
collaborators: every such call is modelled as an oracle input supplied to the
step functions (a response string, already stripped and upper-cased where the
code does `.strip().upper()`, or an explicit error constructor where the code
would catch an exception).  File writes and logging are I/O plumbing outside
the decision core and are not modelled.  Every other piece of control flow is
translated branch for branch from the Python source.
-/

namespace LanggraphHelper

/-- Whether the first character list is a prefix of the second. -/
def isPrefixChars : List Char → List Char → Bool
  | [], _ => true
  | _ :: _, [] => false
  | a :: as, b :: bs => a == b && isPrefixChars as bs

/-- Whether `pat` occurs as a contiguous run at some position of the
second list (including its end). -/
def containsChars (pat : List Char) : List Char → Bool
  | [] => isPrefixChars pat []
  | c :: cs => isPrefixChars pat (c :: cs) || containsChars pat cs

/-- Python's substring test `pat in s` (for `str`): `pat` occurs at some
position of `s`. -/
def containsSubstr (s pat : String) : Bool :=
  containsChars pat.data s.data

/-- The session state threaded through every step: the fields of
`AgentState` in `src/state.py` together with the extra keys the nodes read
and write (`node_history`, `last_node`, `context_is_relevant`,
`context_is_sufficient`, `quality_score`, `routing_error`).  The plumbing
fields `output_dir`, `messages` and `evaluation_scores` are not modelled:
no decision reads them. -/
structure AgentState where
  question : String
  mode : String
  context : String
  answer : String
  iteration : Nat
  maxIterations : Nat
  retrievalAttempts : Nat
  extractedKeywords : List String
  skipRetrieval : Bool
  needsRefinement : Bool
  refinementNotes : String
  contextIsRelevant : Bool
  contextIsSufficient : Bool
  qualityScore : Nat
  lastNode : String
  nodeHistory : List String
  nextAction : String
  routingError : String
deriving DecidableEq, Repr

/-- The initial state built in `run_agent` (`src/agent.py`). -/
def initialState (question mode : String) : AgentState :=
  { question := question
    mode := mode
    context := ""
    answer := ""
    iteration := 0
    maxIterations := 3
    retrievalAttempts := 0
    extractedKeywords := []
    skipRetrieval := false
    needsRefinement := false
    refinementNotes := ""
    contextIsRelevant := false
    contextIsSufficient := false
    qualityScore := 0
    lastNode := ""
    nodeHistory := []
    nextAction := ""
    routingError := "" }

/-- The oracle inputs one `router_node` invocation may consume: one entry per
`llm.invoke` call site, `none` meaning the call raised an exception.  A
`some` value is the response content after `.strip().upper()`. -/
structure RouterOracle where
  relevanceResp : Option String
  safetyResp : Option String
  retrieveDecisionResp : Option String
  retryResp : Option String
  reflectDecisionResp : Option String

/-- The relevance gate's branch condition: `"IRRELEVANT" in relevance_response`,
false when the call raised (the except branch assumes relevant). -/
def relevanceVerdictIrrelevant (resp : Option String) : Bool :=
  match resp with
  | some r => containsSubstr r "IRRELEVANT"
  | none => false

/-- The safety gate's branch condition: `"UNSAFE" in safety_response`, false
when the call raised (the except branch assumes safe). -/
def safetyVerdictHarmful (resp : Option String) : Bool :=
  match resp with
  | some r => containsSubstr r "UNSAFE"
  | none => false

/-- DECISION 1's branch condition: `"ANSWER" in response`, false when the
call raised (the except branch defaults to the retrieval path). -/
def entryVerdictAnswer (resp : Option String) : Bool :=
  match resp with
  | some r => containsSubstr r "ANSWER"
  | none => false

/-- DECISION 3's retry consult: `"RETRY" in response`, false when the call
raised (the except branch defaults to respond). -/
def retryVerdict (resp : Option String) : Bool :=
  match resp with
  | some r => containsSubstr r "RETRY"
  | none => false

/-- Refusal answer written when the relevance gate rejects
(`agent_nodes.py`, DECISION 0). -/
def irrelevantRefusal : String :=
  "I'm a specialized assistant for LangChain and LangGraph documentation. Your question doesn't appear to be related to LangChain or LangGraph. I can only help with questions about LangChain, LangGraph, LangSmith, and related tools and concepts."

/-- Refusal answer written when the safety gate rejects
(`agent_nodes.py`, DECISION 0.5). -/
def harmfulRefusal : String :=
  "I cannot assist with this request. I'm designed to help with legitimate LangChain and LangGraph development questions. If you have questions about security best practices or defensive measures, please rephrase your question constructively."

/-- `router_node` of `src/agent_nodes.py`.  Besides the updated state it
returns the list of oracle calls it performed, in order, tagged
`"relevance"`, `"safety"`, `"trivial"` (the retrieve-vs-answer question of
DECISION 1), `"retry"` (DECISION 3) and `"refine_decide"` (DECISION 5): one
tag per `llm.invoke` call site actually reached. -/
def routerNode (state0 : AgentState) (o : RouterOracle) : AgentState × List String :=
  let state := { state0 with nodeHistory := state0.nodeHistory ++ ["router"] }
  let routerCount := state.nodeHistory.count "router"
  if routerCount > 15 then
    ({ state with nextAction := "end", lastNode := "router" }, [])
  else
    let hasContext : Bool := state.context.trim != ""
    if state0.lastNode = "" then
      -- DECISION 0: relevance gate
      if relevanceVerdictIrrelevant o.relevanceResp then
        ({ state with answer := irrelevantRefusal, skipRetrieval := true,
                      nextAction := "end", lastNode := "router" }, ["relevance"])
      else
        -- DECISION 0.5: safety gate
        if safetyVerdictHarmful o.safetyResp then
          ({ state with answer := harmfulRefusal, skipRetrieval := true,
                        nextAction := "end", lastNode := "router" },
           ["relevance", "safety"])
        else
          -- DECISION 1: answer from knowledge vs retrieve
          if entryVerdictAnswer o.retrieveDecisionResp then
            ({ state with nextAction := "respond", skipRetrieval := true,
                          lastNode := "router" }, ["relevance", "safety", "trivial"])
          else
            ({ state with nextAction := "extract_keywords", skipRetrieval := false,
                          lastNode := "router" }, ["relevance", "safety", "trivial"])
    else if state0.lastNode = "extract_keywords" then
      -- DECISION 2
      ({ state with nextAction := "retrieve", lastNode := "router" }, [])
    else if state0.lastNode = "retrieve" then
      -- DECISION 3
      if state.contextIsSufficient = true ∧ state.contextIsRelevant = true then
        ({ state with nextAction := "respond", lastNode := "router" }, [])
      else if state.contextIsSufficient = false ∧ state.retrievalAttempts < 2 then
        if retryVerdict o.retryResp then
          ({ state with nextAction := "extract_keywords", lastNode := "router" }, ["retry"])
        else
          ({ state with nextAction := "respond", lastNode := "router" }, ["retry"])
      else
        ({ state with nextAction := "respond", lastNode := "router" }, [])
    else if state0.lastNode = "respond" then
      -- DECISION 4
      if state.iteration < state.maxIterations then
        ({ state with nextAction := "reflect", lastNode := "router" }, [])
      else
        ({ state with nextAction := "end", lastNode := "router" }, [])
    else if state0.lastNode = "reflect" then
      -- DECISION 5
      if state.needsRefinement then
        let wantRetrieve := match o.reflectDecisionResp with
          | some r => containsSubstr r "RETRIEVE" && hasContext
          | none => false
        if wantRetrieve then
          ({ state with nextAction := "extract_keywords", lastNode := "router" },
           ["refine_decide"])
        else
          ({ state with nextAction := "respond", lastNode := "router" },
           ["refine_decide"])
      else
        ({ state with nextAction := "end", lastNode := "router" }, [])
    else
      -- FALLBACK
      ({ state with nextAction := "end", lastNode := "router" }, [])

/-- `extract_keywords_node`: the oracle is the result of the
`extract_keywords` tool call, `none` when it raised (the except branch
stores `[]`). -/
def extractKeywordsNode (s : AgentState) (oracle : Option (List String)) : AgentState :=
  let kws := match oracle with
    | some ks => ks
    | none => []
  { s with extractedKeywords := kws, lastNode := "extract_keywords",
           nextAction := "router" }

/-- Outcome the post-retrieval `validate_context_quality` call reports for
one attempt, after the `.get` defaults were applied. -/
structure ValidationResult where
  isRelevant : Bool
  isSufficient : Bool
  missingInfo : String
deriving DecidableEq, Repr

/-- What one retrieval attempt of `retrieve_node` observes from the outside
world: `err` when the attempt body raised (retrieval call, validation, or a
later call of the same attempt), `ok` carrying the retrieved context, the
validation verdict and the result a `refine_search_query` call would return
(`none` when that call would raise). -/
inductive AttemptOutcome where
  | err : AttemptOutcome
  | ok (context : String) (validation : ValidationResult)
      (refined : Option String) : AttemptOutcome
deriving DecidableEq, Repr

/-- Whether an attempt satisfies the loop's success condition
(`is_relevant and is_sufficient` after a non-raising attempt body). -/
def successfulOutcome : AttemptOutcome → Bool
  | .err => false
  | .ok _ v _ => v.isRelevant && v.isSufficient

/-- Events `retrieve_node` emits, for tracing which backend calls happen:
one `search` per attempt that issues a retrieval call (with the query, the
`restrict_to_official` flag and whether the keyword multi-query path was
taken), and one `refineQuery` per `refine_search_query` call. -/
inductive RetEvent where
  | search (attempt : Nat) (query : String) (restrictToOfficial : Bool)
      (multiQuery : Bool) : RetEvent
  | refineQuery (attempt : Nat) (feedback : String) : RetEvent
deriving DecidableEq, Repr

/-- The attempt number an event belongs to. -/
def RetEvent.attempt : RetEvent → Nat
  | .search a _ _ _ => a
  | .refineQuery a _ => a

/-- The sentinel context committed when the final retrieval attempt raised
(`retrieve_node`, except branch, with `max_attempts = 3`). -/
def retrieveErrorSentinel : String :=
  "Error: Unable to retrieve documentation after 3 attempts"

/-- The attempt loop of `retrieve_node` (`for attempt in range(1, max_attempts + 1)`
with `max_attempts = 3`, so the attempt list is `[1, 2, 3]`).  The second and
third arguments of the recursion are the loop-carried `current_query` and
`restrict_to_official`.  `rest = []` exactly when `attempt = max_attempts`,
so `rest ≠ []` is the source's `attempt < max_attempts` test. -/
def retrieveGo (oracle : Nat → AttemptOutcome) (question mode : String)
    (keywords : List String) :
    List Nat → String → Bool → AgentState → AgentState × List RetEvent
  | [], _, _, s => (s, [])
  | attempt :: rest, query0, restrict0, s =>
    let qr : String × Bool :=
      if mode = "online" ∧ attempt = 2 ∧ restrict0 = true then (question, false)
      else (query0, restrict0)
    let currentQuery := qr.1
    let restrictToOfficial := qr.2
    let multiQuery : Bool := !keywords.isEmpty && attempt == 1
    let ev := RetEvent.search attempt currentQuery restrictToOfficial multiQuery
    match oracle attempt with
    | .err =>
      if rest = [] then
        ({ s with context := retrieveErrorSentinel,
                  retrievalAttempts := attempt,
                  contextIsRelevant := false,
                  contextIsSufficient := false }, [ev])
      else
        let next := retrieveGo oracle question mode keywords rest currentQuery
          restrictToOfficial s
        (next.1, ev :: next.2)
    | .ok ctx val refined =>
      if val.isRelevant && val.isSufficient then
        ({ s with context := ctx, retrievalAttempts := attempt,
                  contextIsRelevant := true, contextIsSufficient := true }, [ev])
      else if rest ≠ [] then
        if mode = "online" ∧ attempt = 1 ∧ restrictToOfficial = true then
          let next := retrieveGo oracle question mode keywords rest currentQuery
            restrictToOfficial s
          (next.1, ev :: next.2)
        else
          let feedback :=
            if val.missingInfo = "" then "Context not specific enough"
            else val.missingInfo
          let nextQuery := match refined with
            | some rq => rq
            | none => currentQuery
          let next := retrieveGo oracle question mode keywords rest nextQuery
            restrictToOfficial s
          (next.1, ev :: RetEvent.refineQuery attempt feedback :: next.2)
      else
        ({ s with context := ctx, retrievalAttempts := attempt,
                  contextIsRelevant := val.isRelevant,
                  contextIsSufficient := val.isSufficient }, [ev])

/-- `retrieve_node` of `src/agent_nodes.py`: run the attempt loop starting
from `current_query = question`, `restrict_to_official = True`, then hand
control back to the router. -/
def retrieveNode (s : AgentState) (oracle : Nat → AttemptOutcome) :
    AgentState × List RetEvent :=
  let next := retrieveGo oracle s.question s.mode s.extractedKeywords
    [1, 2, 3] s.question true s
  ({ next.1 with lastNode := "retrieve", nextAction := "router" }, next.2)

/-- `respond_node`: only the state fields are modelled (prompt construction
and file persistence are plumbing).  The oracle is the generation call:
`.error e` models the except branch with exception text `e`. -/
def respondNode (s : AgentState) (oracle : Except String String) : AgentState :=
  let answer := match oracle with
    | .ok a => a
    | .error e => "Error generating answer: " ++ e
  { s with answer := answer, lastNode := "respond", nextAction := "router" }

/-- Outcome of the `check_answer_completeness` call inside `reflect_node`:
`err` when it raised. -/
inductive ReflectOutcome where
  | err : ReflectOutcome
  | ok (qualityScore : Nat) (suggestions : String) : ReflectOutcome
deriving DecidableEq, Repr

/-- `reflect_node` of `src/agent_nodes.py`. -/
def reflectNode (s : AgentState) (oracle : ReflectOutcome) : AgentState :=
  match oracle with
  | .ok q sg =>
    let s1 := { s with qualityScore := q }
    if q < 7 ∧ s.iteration < s.maxIterations then
      { s1 with needsRefinement := true, iteration := s.iteration + 1,
                refinementNotes := sg, lastNode := "reflect",
                nextAction := "router" }
    else
      { s1 with needsRefinement := false, lastNode := "reflect",
                nextAction := "router" }
  | .err =>
    { s with needsRefinement := false, qualityScore := 0,
             lastNode := "reflect", nextAction := "router" }

/-- `route_by_next_action` of `src/agent.py`: the universal conditional-edge
function.  Returns the (possibly updated, on the self-loop branch) state and
the routing key looked up in the routing map. -/
def routeByNextAction (state : AgentState) : AgentState × String :=
  let na := state.nextAction
  if na = state.lastNode ∧ na ≠ "" then
    ({ state with routingError :=
        "Self-loop detected: " ++ na ++ " tried to call itself" }, "end")
  else
    (state, na)

/-- The five graph nodes of `build_agent_graph`. -/
inductive Node where
  | router | extractKeywords | retrieve | respond | reflect
deriving DecidableEq, Repr

/-- The node's name as registered in the graph / written into `last_node`. -/
def Node.pyName : Node → String
  | .router => "router"
  | .extractKeywords => "extract_keywords"
  | .retrieve => "retrieve"
  | .respond => "respond"
  | .reflect => "reflect"

/-- All oracle inputs one graph step may consume, whichever node runs. -/
structure StepOracle where
  routerO : RouterOracle
  retrieveO : Nat → AttemptOutcome
  extractO : Option (List String)
  respondO : Except String String
  reflectO : ReflectOutcome

/-- Execute one node on the state, returning the updated state, the router's
oracle-call tags (empty for the executor nodes) and the retrieval events
(empty except for `retrieve`). -/
def execNode (n : Node) (s : AgentState) (o : StepOracle) :
    AgentState × List String × List RetEvent :=
  match n with
  | .router =>
    let r := routerNode s o.routerO
    (r.1, r.2, [])
  | .extractKeywords => (extractKeywordsNode s o.extractO, [], [])
  | .retrieve =>
    let r := retrieveNode s o.retrieveO
    (r.1, [], r.2)
  | .respond => (respondNode s o.respondO, [], [])
  | .reflect => (reflectNode s o.reflectO, [], [])

/-- The routing map of `build_agent_graph` (without evaluation): each known
key maps to the node of the same name, `"end"` to END, anything else is a
lookup error. -/
def strToNode (a : String) : Option Node :=
  if a = "router" then some .router
  else if a = "extract_keywords" then some .extractKeywords
  else if a = "retrieve" then some .retrieve
  else if a = "respond" then some .respond
  else if a = "reflect" then some .reflect
  else none

/-- One executed graph step: the node that ran, the state it produced, and
the oracle-call / retrieval-event traces of that execution. -/
structure StepRecord where
  node : Node
  post : AgentState
  calls : List String
  retEvents : List RetEvent
deriving DecidableEq, Repr

/-- The compiled graph's execution loop: run the current node, route by
`next_action`, stop at END.  `fuel` models the `recursion_limit` (50 in
`run_agent`): `none` means the limit was hit (a `GraphRecursionError`) or an
unknown routing key was produced.  The result carries the full list of step
records and the final state.  `k` indexes the oracle stream. -/
def run : Nat → Node → AgentState → (Nat → StepOracle) → Nat →
    Option (List StepRecord × AgentState)
  | 0, _, _, _, _ => none
  | fuel + 1, n, s, os, k =>
    let e := execNode n s (os k)
    let r := routeByNextAction e.1
    let rec0 : StepRecord := ⟨n, e.1, e.2.1, e.2.2⟩
    if r.2 = "end" then
      some ([rec0], r.1)
    else
      match strToNode r.2 with
      | none => none
      | some next =>
        match run fuel next r.1 os (k + 1) with
        | none => none
        | some p => some (rec0 :: p.1, p.2)

/-- A complete session as `run_agent` launches it: entry point `router`,
recursion limit 50, initial state from the question and mode. -/
def runSession (question mode : String) (os : Nat → StepOracle) :
    Option (List StepRecord × AgentState) :=
  run 50 .router (initialState question mode) os 0

/-- The router-invocation count the loop guard inspects: the number of
`"router"` entries in `node_history` (before the current invocation's own
append). -/
def routerGateCount (s : AgentState) : Nat := s.nodeHistory.count "router"

/-! ### Concrete fixtures used to evaluate the definitions on closed inputs -/

/-- A router oracle whose every call raises. -/
def exampleRouterOracleNone : RouterOracle := ⟨none, none, none, none, none⟩

/-- A step oracle with chosen entry-gate responses; every other call
raises. -/
def exampleEntryOracle (rel saf : Option String) : StepOracle :=
  { routerO := ⟨rel, saf, none, none, none⟩
    retrieveO := fun _ => .err
    extractO := none
    respondO := .error "e"
    reflectO := .err }

/-- A state whose history already holds 16 router entries. -/
def exampleGuardState : AgentState :=
  { initialState "q" "offline" with nodeHistory := List.replicate 16 "router" }

/-- The state an entry-gate refusal leaves behind. -/
def exampleRefusalFinal (q m ans : String) : AgentState :=
  { initialState q m with
    nodeHistory := ["router"]
    answer := ans
    skipRetrieval := true
    nextAction := "end"
    lastNode := "router" }

/-- The single step record of an entry-gate refusal session. -/
def exampleRefusalRecord (q m ans : String) (calls : List String) : StepRecord :=
  ⟨Node.router, exampleRefusalFinal q m ans, calls, []⟩

/-- Attempts 1 and 2 complete but fail the quality check; attempt 3
raises. -/
def exampleC7Oracle : Nat → AttemptOutcome := fun a =>
  if a = 3 then .err else .ok "partial docs" ⟨true, false, "gap"⟩ (some "q2")

/-- Every attempt completes but fails the quality check. -/
def exampleC8Oracle : Nat → AttemptOutcome := fun _ =>
  .ok "partial docs" ⟨true, false, "gap"⟩ (some "q2")

/-- A post-retrieve state with good context quality. -/
def exampleRetrieveEntryState : AgentState :=
  { initialState "q" "offline" with
    lastNode := "retrieve"
    contextIsSufficient := true
    contextIsRelevant := true }

/-- A state declaring a self-loop: `next_action` equal to `last_node`. -/
def exampleSelfLoopState : AgentState :=
  { initialState "q" "offline" with nextAction := "respond", lastNode := "respond" }

/-! ### Router node lemmas -/

theorem routerNode_preserved (s : AgentState) (o : RouterOracle) :
    (routerNode s o).1.iteration = s.iteration ∧
    (routerNode s o).1.maxIterations = s.maxIterations ∧
    (routerNode s o).1.retrievalAttempts = s.retrievalAttempts ∧
    (routerNode s o).1.contextIsRelevant = s.contextIsRelevant ∧
    (routerNode s o).1.contextIsSufficient = s.contextIsSufficient ∧
    (routerNode s o).1.nodeHistory = s.nodeHistory ++ ["router"] ∧
    (routerNode s o).1.lastNode = "router" := by
  unfold routerNode
  dsimp only
  repeat' split
  all_goals simp

theorem routerNode_nextAction_ne_router (s : AgentState) (o : RouterOracle) :
    (routerNode s o).1.nextAction ≠ "router" := by
  unfold routerNode
  dsimp only
  repeat' split
  all_goals simp

theorem routerNode_nextAction_cases (s : AgentState) (o : RouterOracle) :
    (routerNode s o).1.nextAction = "end" ∨
    (routerNode s o).1.nextAction = "respond" ∨
    (routerNode s o).1.nextAction = "extract_keywords" ∨
    (routerNode s o).1.nextAction = "retrieve" ∨
    (routerNode s o).1.nextAction = "reflect" := by
  unfold routerNode
  dsimp only
  repeat' split
  all_goals simp

set_option maxHeartbeats 1000000 in
/-- Which next step the router can emit for each incoming `last_node`: the
edge relation of the decision table (any branch may fall to `"end"`). -/
theorem routerNode_edges (s : AgentState) (o : RouterOracle) :
    (routerNode s o).1.nextAction = "end" ∨
    (s.lastNode = "" ∧
      ((routerNode s o).1.nextAction = "respond" ∨
       (routerNode s o).1.nextAction = "extract_keywords")) ∨
    (s.lastNode = "extract_keywords" ∧ (routerNode s o).1.nextAction = "retrieve") ∨
    (s.lastNode = "retrieve" ∧
      ((routerNode s o).1.nextAction = "respond" ∨
       (routerNode s o).1.nextAction = "extract_keywords")) ∨
    (s.lastNode = "respond" ∧ (routerNode s o).1.nextAction = "reflect") ∨
    (s.lastNode = "reflect" ∧
      ((routerNode s o).1.nextAction = "extract_keywords" ∨
       (routerNode s o).1.nextAction = "respond")) := by
  unfold routerNode
  dsimp only
  repeat' split
  all_goals simp_all

/-- Exceeding 15 router invocations (counted after the current append)
forces `end`. -/
theorem routerNode_guard (s : AgentState) (o : RouterOracle)
    (h : 15 ≤ routerGateCount s) :
    (routerNode s o).1.nextAction = "end" := by
  unfold routerNode
  dsimp only
  split
  · rfl
  · rename_i hc
    exfalso
    simp only [routerGateCount] at h
    simp [List.count_append] at hc
    omega

/-- If the router emitted anything but `end`, the loop guard had headroom:
fewer than 15 prior router entries. -/
theorem routerNode_nonend_count (s : AgentState) (o : RouterOracle)
    (h : (routerNode s o).1.nextAction ≠ "end") :
    routerGateCount s < 15 := by
  by_contra hc
  push_neg at hc
  exact h (routerNode_guard s o hc)

/-- The retry consult happens only in DECISION 3's insufficient-context
branch. -/
theorem routerNode_retry_call (s : AgentState) (o : RouterOracle)
    (h : "retry" ∈ (routerNode s o).2) :
    s.lastNode = "retrieve" ∧ s.contextIsSufficient = false ∧
      s.retrievalAttempts < 2 := by
  revert h
  unfold routerNode
  dsimp only
  repeat' split
  all_goals simp_all

/-! ### Retrieve node lemmas -/

/-- The attempt loop never touches the routing bookkeeping or the
iteration counters. -/
theorem retrieveGo_preserved (oracle : Nat → AttemptOutcome) (q m : String)
    (kws : List String) :
    ∀ (l : List Nat) (cq : String) (r : Bool) (s : AgentState),
    (retrieveGo oracle q m kws l cq r s).1.nextAction = s.nextAction ∧
    (retrieveGo oracle q m kws l cq r s).1.lastNode = s.lastNode ∧
    (retrieveGo oracle q m kws l cq r s).1.nodeHistory = s.nodeHistory ∧
    (retrieveGo oracle q m kws l cq r s).1.iteration = s.iteration ∧
    (retrieveGo oracle q m kws l cq r s).1.maxIterations = s.maxIterations ∧
    (retrieveGo oracle q m kws l cq r s).1.needsRefinement = s.needsRefinement := by
  intro l
  induction l with
  | nil => intro cq r s; simp [retrieveGo]
  | cons a rest ih =>
    intro cq r s
    unfold retrieveGo
    dsimp only
    repeat' split
    all_goals first
      | exact ih _ _ _
      | simp

/-- Any committed `retrieval_attempts` value comes from the attempt list,
so it stays at most 3 (the attempt numbers are `1, 2, 3`). -/
theorem retrieveGo_attempts (oracle : Nat → AttemptOutcome) (q m : String)
    (kws : List String) :
    ∀ (l : List Nat) (cq : String) (r : Bool) (s : AgentState),
    l ≠ [] → (∀ a ∈ l, a ≤ 3) →
    (retrieveGo oracle q m kws l cq r s).1.retrievalAttempts ≤ 3 := by
  intro l
  induction l with
  | nil => intro cq r s h; exact absurd rfl h
  | cons a rest ih =>
    intro cq r s _ hle
    have ha : a ≤ 3 := hle a (List.mem_cons_self a rest)
    have hrest : ∀ b ∈ rest, b ≤ 3 := fun b hb => hle b (List.mem_cons_of_mem a hb)
    unfold retrieveGo
    dsimp only
    repeat' split
    all_goals first
      | simpa using ha
      | (apply ih <;> first | assumption | exact hrest)

/-- The loop exits either by the success condition (both flags committed
true) or at the final attempt (number 3), committing `retrieval_attempts = 3`. -/
theorem retrieveGo_post (oracle : Nat → AttemptOutcome) (q m : String)
    (kws : List String) :
    ∀ (l : List Nat) (cq : String) (r : Bool) (s : AgentState),
    l.getLast? = some 3 →
    ((retrieveGo oracle q m kws l cq r s).1.contextIsRelevant = true ∧
     (retrieveGo oracle q m kws l cq r s).1.contextIsSufficient = true) ∨
    (retrieveGo oracle q m kws l cq r s).1.retrievalAttempts = 3 := by
  intro l
  induction l with
  | nil => intro cq r s h; simp at h
  | cons a rest ih =>
    intro cq r s hl
    rcases rest with _ | ⟨b, rest2⟩
    · simp at hl
      subst hl
      unfold retrieveGo
      dsimp only
      repeat' split
      all_goals simp_all
    · rw [List.getLast?_cons_cons] at hl
      unfold retrieveGo
      dsimp only
      repeat' split
      all_goals first
        | exact absurd (show b :: rest2 = [] by assumption)
            (List.cons_ne_nil b rest2)
        | exact ih _ _ _ hl
        | (rename_i hflags hnn hcond
           exact absurd (not_not.mp hnn) (List.cons_ne_nil b rest2))
        | (rename_i hflags hnn
           exact absurd (not_not.mp hnn) (List.cons_ne_nil b rest2))
        | simp

/-- `retrieve_node` hands control back to the router and leaves the
refinement counters alone. -/
theorem retrieveNode_preserved (s : AgentState) (oracle : Nat → AttemptOutcome) :
    (retrieveNode s oracle).1.nextAction = "router" ∧
    (retrieveNode s oracle).1.lastNode = "retrieve" ∧
    (retrieveNode s oracle).1.nodeHistory = s.nodeHistory ∧
    (retrieveNode s oracle).1.iteration = s.iteration ∧
    (retrieveNode s oracle).1.maxIterations = s.maxIterations ∧
    (retrieveNode s oracle).1.needsRefinement = s.needsRefinement := by
  unfold retrieveNode
  have h := retrieveGo_preserved oracle s.question s.mode s.extractedKeywords
    [1, 2, 3] s.question true s
  dsimp only
  exact ⟨rfl, rfl, h.2.2.1, h.2.2.2.1, h.2.2.2.2.1, h.2.2.2.2.2⟩

/-- Within a single `retrieve_node` invocation the committed
`retrieval_attempts` never exceeds 3. -/
theorem retrieveNode_attempts_le (s : AgentState) (oracle : Nat → AttemptOutcome) :
    (retrieveNode s oracle).1.retrievalAttempts ≤ 3 := by
  unfold retrieveNode
  dsimp only
  exact retrieveGo_attempts oracle s.question s.mode s.extractedKeywords
    [1, 2, 3] s.question true s (by simp) (by decide)

/-- After `retrieve_node` finishes, either both context-quality flags are
true or all three attempts were consumed. -/
theorem retrieveNode_post (s : AgentState) (oracle : Nat → AttemptOutcome) :
    ((retrieveNode s oracle).1.contextIsRelevant = true ∧
     (retrieveNode s oracle).1.contextIsSufficient = true) ∨
    (retrieveNode s oracle).1.retrievalAttempts = 3 := by
  unfold retrieveNode
  dsimp only
  exact retrieveGo_post oracle s.question s.mode s.extractedKeywords
    [1, 2, 3] s.question true s rfl

/-- Every emitted retrieval event belongs to an attempt number from the
attempt list. -/
theorem retrieveGo_event_attempt (oracle : Nat → AttemptOutcome) (q m : String)
    (kws : List String) :
    ∀ (l : List Nat) (cq : String) (r : Bool) (s : AgentState) (e : RetEvent),
    e ∈ (retrieveGo oracle q m kws l cq r s).2 → RetEvent.attempt e ∈ l := by
  intro l
  induction l with
  | nil => intro cq r s e he; simp [retrieveGo] at he
  | cons a rest ih =>
    intro cq r s e he
    unfold retrieveGo at he
    dsimp only at he
    repeat' split at he
    all_goals simp only [List.mem_cons, List.mem_singleton, List.not_mem_nil,
      or_false] at he
    all_goals first
      | (rcases he with rfl | rfl | he
         · simp [RetEvent.attempt]
         · simp [RetEvent.attempt]
         · exact List.mem_cons_of_mem _ (ih _ _ _ _ he))
      | (rcases he with rfl | he
         · simp [RetEvent.attempt]
         · exact List.mem_cons_of_mem _ (ih _ _ _ _ he))
      | (subst he; simp [RetEvent.attempt])

/-- Every attempt issues exactly one retrieval call first: the event list of
a nonempty attempt list starts with that attempt's `search` event, built
from the loop-top query/restriction switch. -/
theorem retrieveGo_events_cons (oracle : Nat → AttemptOutcome) (q m : String)
    (kws : List String) (a : Nat) (rest : List Nat) (cq : String) (r : Bool)
    (s : AgentState) :
    ∃ t, (retrieveGo oracle q m kws (a :: rest) cq r s).2 =
      RetEvent.search a
        (if m = "online" ∧ a = 2 ∧ r = true then q else cq)
        (if m = "online" ∧ a = 2 ∧ r = true then false else r)
        (!kws.isEmpty && a == 1) :: t := by
  unfold retrieveGo
  dsimp only
  repeat' split
  all_goals simp_all

set_option maxRecDepth 8000 in
set_option maxHeartbeats 1600000 in
/-- Exhaustion with the final attempt raising: the error sentinel is
committed with both flags false, whatever the earlier attempts did. -/
theorem retrieveNode_exhaust_err (s : AgentState) (oracle : Nat → AttemptOutcome)
    (h1 : successfulOutcome (oracle 1) = false)
    (h2 : successfulOutcome (oracle 2) = false)
    (h3 : oracle 3 = .err) :
    (retrieveNode s oracle).1.context = retrieveErrorSentinel ∧
    (retrieveNode s oracle).1.contextIsRelevant = false ∧
    (retrieveNode s oracle).1.contextIsSufficient = false ∧
    (retrieveNode s oracle).1.retrievalAttempts = 3 := by
  unfold retrieveNode
  simp only [retrieveGo]
  rcases ho1 : oracle 1 with _ | ⟨c1, v1, r1⟩ <;>
  rcases ho2 : oracle 2 with _ | ⟨c2, v2, r2⟩ <;>
  simp_all [successfulOutcome]
  all_goals repeat' split
  all_goals simp_all

set_option maxRecDepth 8000 in
set_option maxHeartbeats 1600000 in
/-- Exhaustion with the final attempt completing: the attempt-3 context and
its validation flags are committed as-is. -/
theorem retrieveNode_exhaust_ok (s : AgentState) (oracle : Nat → AttemptOutcome)
    (c3 : String) (v3 : ValidationResult) (rf3 : Option String)
    (h1 : successfulOutcome (oracle 1) = false)
    (h2 : successfulOutcome (oracle 2) = false)
    (h3 : oracle 3 = .ok c3 v3 rf3)
    (hf : (v3.isRelevant && v3.isSufficient) = false) :
    (retrieveNode s oracle).1.context = c3 ∧
    (retrieveNode s oracle).1.contextIsRelevant = v3.isRelevant ∧
    (retrieveNode s oracle).1.contextIsSufficient = v3.isSufficient ∧
    (retrieveNode s oracle).1.retrievalAttempts = 3 := by
  unfold retrieveNode
  simp only [retrieveGo]
  rcases ho1 : oracle 1 with _ | ⟨c1, v1, r1⟩ <;>
  rcases ho2 : oracle 2 with _ | ⟨c2, v2, r2⟩ <;>
  simp_all [successfulOutcome]
  all_goals repeat' split
  all_goals simp_all

set_option maxRecDepth 8000 in
set_option maxHeartbeats 1600000 in
/-- Web mode, restricted attempt 1 fails the quality check: attempt 2
searches with the original question, unrestricted, and no refine call is
made for the attempt-1 failure. -/
theorem retrieveNode_web_attempt2 (s : AgentState) (oracle : Nat → AttemptOutcome)
    (c1 : String) (v1 : ValidationResult) (rf1 : Option String)
    (hm : s.mode = "online")
    (h1 : oracle 1 = .ok c1 v1 rf1)
    (hf : (v1.isRelevant && v1.isSufficient) = false) :
    (retrieveNode s oracle).2.take 2 =
      [RetEvent.search 1 s.question true (!s.extractedKeywords.isEmpty),
       RetEvent.search 2 s.question false false] ∧
    ∀ fb : String, RetEvent.refineQuery 1 fb ∉ (retrieveNode s oracle).2 := by
  have hcons := retrieveGo_events_cons oracle s.question s.mode
    s.extractedKeywords 2 [3] s.question true s
  unfold retrieveNode
  dsimp only
  unfold retrieveGo
  dsimp only
  rw [h1]
  rcases hcons with ⟨t, ht⟩
  simp_all
  have hne : ¬(v1.isRelevant = true ∧ v1.isSufficient = true) := by
    rintro ⟨ha, hb⟩
    rw [hf ha] at hb
    exact Bool.false_ne_true hb
  rw [if_neg hne]
  constructor
  · simp
  · intro fb hmem
    simp only [List.mem_cons] at hmem
    rcases hmem with h | h | h
    · exact absurd h (by simp)
    · exact absurd h (by simp)
    · have ha2 : RetEvent.attempt (RetEvent.refineQuery 1 fb) ∈ [2, 3] := by
        apply retrieveGo_event_attempt oracle s.question "online"
          s.extractedKeywords [2, 3] s.question true s
        rw [ht]
        exact List.mem_cons_of_mem _ h
      simp [RetEvent.attempt] at ha2

/-- Entry with an irrelevant verdict: refusal answer, skip flag, terminate;
only the relevance check ran. -/
theorem routerNode_entry_irrelevant (s : AgentState) (o : RouterOracle)
    (h0 : s.lastNode = "") (hg : routerGateCount s < 15)
    (h : relevanceVerdictIrrelevant o.relevanceResp = true) :
    routerNode s o =
      ({ s with nodeHistory := s.nodeHistory ++ ["router"],
                answer := irrelevantRefusal, skipRetrieval := true,
                nextAction := "end", lastNode := "router" }, ["relevance"]) := by
  unfold routerNode
  dsimp only
  split
  · rename_i hc
    exfalso
    simp only [routerGateCount] at hg
    simp [List.count_append] at hc
    omega
  · simp [h0, h]

/-- Entry with a passing relevance check but a harmful safety verdict:
refusal answer, skip flag, terminate; relevance then safety ran. -/
theorem routerNode_entry_harmful (s : AgentState) (o : RouterOracle)
    (h0 : s.lastNode = "") (hg : routerGateCount s < 15)
    (hrel : relevanceVerdictIrrelevant o.relevanceResp = false)
    (h : safetyVerdictHarmful o.safetyResp = true) :
    routerNode s o =
      ({ s with nodeHistory := s.nodeHistory ++ ["router"],
                answer := harmfulRefusal, skipRetrieval := true,
                nextAction := "end", lastNode := "router" },
       ["relevance", "safety"]) := by
  unfold routerNode
  dsimp only
  split
  · rename_i hc
    exfalso
    simp only [routerGateCount] at hg
    simp [List.count_append] at hc
    omega
  · simp [h0, hrel, h]

/-- At entry (guard untripped) the oracle-call trace is always a prefix
chain relevance → safety → trivial. -/
theorem routerNode_entry_calls (s : AgentState) (o : RouterOracle)
    (h0 : s.lastNode = "") (hg : routerGateCount s < 15) :
    (routerNode s o).2 = ["relevance"] ∨
    (routerNode s o).2 = ["relevance", "safety"] ∨
    (routerNode s o).2 = ["relevance", "safety", "trivial"] := by
  unfold routerNode
  dsimp only
  repeat' split
  all_goals try (exact Or.inl rfl)
  all_goals try (exact Or.inr (Or.inl rfl))
  all_goals try (exact Or.inr (Or.inr rfl))
  all_goals exfalso
  all_goals first
    | (rename_i hc
       simp only [routerGateCount] at hg
       simp [List.count_append] at hc
       omega)
    | simp_all

/-- After a retrieve step whose committed state satisfies the retrieve
postcondition, the router (guard untripped) always answers `respond` and
consults no oracle. -/
theorem routerNode_after_retrieve (s : AgentState) (o : RouterOracle)
    (h1 : s.lastNode = "retrieve") (hg : routerGateCount s < 15)
    (h3 : (s.contextIsRelevant = true ∧ s.contextIsSufficient = true) ∨
          s.retrievalAttempts = 3) :
    (routerNode s o).1.nextAction = "respond" ∧ (routerNode s o).2 = [] := by
  unfold routerNode
  dsimp only
  split
  · rename_i hc
    exfalso
    simp only [routerGateCount] at hg
    simp [List.count_append] at hc
    omega
  · rcases h3 with ⟨hr, hs⟩ | ha
    · simp [h1, hr, hs]
    · simp only [h1, ha]
      repeat' split
      all_goals simp_all

/-! ### Executor node lemmas -/

theorem extractKeywordsNode_post (s : AgentState) (o : Option (List String)) :
    (extractKeywordsNode s o).nextAction = "router" ∧
    (extractKeywordsNode s o).lastNode = "extract_keywords" ∧
    (extractKeywordsNode s o).nodeHistory = s.nodeHistory ∧
    (extractKeywordsNode s o).iteration = s.iteration ∧
    (extractKeywordsNode s o).maxIterations = s.maxIterations ∧
    (extractKeywordsNode s o).retrievalAttempts = s.retrievalAttempts ∧
    (extractKeywordsNode s o).contextIsRelevant = s.contextIsRelevant ∧
    (extractKeywordsNode s o).contextIsSufficient = s.contextIsSufficient := by
  unfold extractKeywordsNode
  simp

theorem respondNode_post (s : AgentState) (o : Except String String) :
    (respondNode s o).nextAction = "router" ∧
    (respondNode s o).lastNode = "respond" ∧
    (respondNode s o).nodeHistory = s.nodeHistory ∧
    (respondNode s o).iteration = s.iteration ∧
    (respondNode s o).maxIterations = s.maxIterations ∧
    (respondNode s o).retrievalAttempts = s.retrievalAttempts ∧
    (respondNode s o).contextIsRelevant = s.contextIsRelevant ∧
    (respondNode s o).contextIsSufficient = s.contextIsSufficient := by
  unfold respondNode
  simp

theorem reflectNode_post (s : AgentState) (o : ReflectOutcome) :
    (reflectNode s o).nextAction = "router" ∧
    (reflectNode s o).lastNode = "reflect" ∧
    (reflectNode s o).nodeHistory = s.nodeHistory ∧
    (reflectNode s o).maxIterations = s.maxIterations ∧
    (reflectNode s o).retrievalAttempts = s.retrievalAttempts ∧
    (reflectNode s o).contextIsRelevant = s.contextIsRelevant ∧
    (reflectNode s o).contextIsSufficient = s.contextIsSufficient ∧
    s.iteration ≤ (reflectNode s o).iteration ∧
    (reflectNode s o).iteration ≤ max s.iteration s.maxIterations := by
  unfold reflectNode
  rcases o with _ | ⟨q, sg⟩
  · simp
  · dsimp only
    split
    · rename_i h
      simp
      omega
    · simp

/-- The refinement branch of `reflect_node`: low score with iterations
remaining. -/
theorem reflectNode_ok_lt (s : AgentState) (q : Nat) (sg : String)
    (h1 : q < 7) (h2 : s.iteration < s.maxIterations) :
    (reflectNode s (.ok q sg)).needsRefinement = true ∧
    (reflectNode s (.ok q sg)).iteration = s.iteration + 1 ∧
    (reflectNode s (.ok q sg)).refinementNotes = sg ∧
    (reflectNode s (.ok q sg)).qualityScore = q := by
  unfold reflectNode
  dsimp only
  rw [if_pos ⟨h1, h2⟩]
  simp

/-- The accept branch of `reflect_node`: threshold met or iterations
exhausted. -/
theorem reflectNode_ok_ge (s : AgentState) (q : Nat) (sg : String)
    (h : ¬(q < 7 ∧ s.iteration < s.maxIterations)) :
    (reflectNode s (.ok q sg)).needsRefinement = false ∧
    (reflectNode s (.ok q sg)).iteration = s.iteration ∧
    (reflectNode s (.ok q sg)).refinementNotes = s.refinementNotes ∧
    (reflectNode s (.ok q sg)).qualityScore = q := by
  unfold reflectNode
  dsimp only
  rw [if_neg h]
  simp

/-- The except branch of `reflect_node`: accept, zero score, iteration
unchanged. -/
theorem reflectNode_err (s : AgentState) :
    (reflectNode s .err).needsRefinement = false ∧
    (reflectNode s .err).iteration = s.iteration ∧
    (reflectNode s .err).refinementNotes = s.refinementNotes ∧
    (reflectNode s .err).qualityScore = 0 := by
  unfold reflectNode
  simp

/-! ### Routing lemmas -/

theorem Node.pyName_ne_router (e : Node) (he : e ≠ .router) :
    e.pyName ≠ "router" := by
  cases e <;> simp [Node.pyName] at he ⊢

theorem routeByNextAction_after_router (s : AgentState) (o : RouterOracle) :
    routeByNextAction (routerNode s o).1 =
      ((routerNode s o).1, (routerNode s o).1.nextAction) := by
  unfold routeByNextAction
  try dsimp only
  rw [if_neg]
  rintro ⟨h1, h2⟩
  have hl := (routerNode_preserved s o).2.2.2.2.2.2
  rw [hl] at h1
  exact routerNode_nextAction_ne_router s o h1

theorem execNode_router (s : AgentState) (o : StepOracle) :
    (execNode .router s o).1 = (routerNode s o.routerO).1 ∧
    (execNode .router s o).2.1 = (routerNode s o.routerO).2 ∧
    (execNode .router s o).2.2 = [] := by
  unfold execNode
  exact ⟨rfl, rfl, rfl⟩

theorem execNode_executor_post (e : Node) (he : e ≠ .router) (s : AgentState)
    (o : StepOracle) :
    (execNode e s o).1.nextAction = "router" ∧
    (execNode e s o).1.lastNode = e.pyName ∧
    (execNode e s o).1.nodeHistory = s.nodeHistory ∧
    (execNode e s o).1.maxIterations = s.maxIterations ∧
    s.iteration ≤ (execNode e s o).1.iteration ∧
    (execNode e s o).1.iteration ≤ max s.iteration s.maxIterations ∧
    (execNode e s o).1.retrievalAttempts ≤ max s.retrievalAttempts 3 ∧
    (execNode e s o).2.1 = [] := by
  cases e with
  | router => exact absurd rfl he
  | extractKeywords =>
    have h := extractKeywordsNode_post s o.extractO
    unfold execNode
    try dsimp only
    refine ⟨h.1, h.2.1, h.2.2.1, h.2.2.2.2.1, ?_, ?_, ?_, rfl⟩
    · rw [h.2.2.2.1]
    · rw [h.2.2.2.1]; omega
    · rw [h.2.2.2.2.2.1]; omega
  | retrieve =>
    have h := retrieveNode_preserved s o.retrieveO
    have ha := retrieveNode_attempts_le s o.retrieveO
    unfold execNode
    try dsimp only
    refine ⟨h.1, h.2.1, h.2.2.1, h.2.2.2.2.1, ?_, ?_, ?_, rfl⟩
    · rw [h.2.2.2.1]
    · rw [h.2.2.2.1]; omega
    · omega
  | respond =>
    have h := respondNode_post s o.respondO
    unfold execNode
    try dsimp only
    refine ⟨h.1, h.2.1, h.2.2.1, h.2.2.2.2.1, ?_, ?_, ?_, rfl⟩
    · rw [h.2.2.2.1]
    · rw [h.2.2.2.1]; omega
    · rw [h.2.2.2.2.2.1]; omega
  | reflect =>
    have h := reflectNode_post s o.reflectO
    unfold execNode
    try dsimp only
    refine ⟨h.1, h.2.1, h.2.2.1, h.2.2.2.1, ?_, ?_, ?_, rfl⟩
    · exact h.2.2.2.2.2.2.2.1
    · exact h.2.2.2.2.2.2.2.2
    · rw [h.2.2.2.2.1]; omega

theorem routeByNextAction_after_executor (e : Node) (he : e ≠ .router)
    (s : AgentState) (o : StepOracle) :
    routeByNextAction (execNode e s o).1 = ((execNode e s o).1, "router") := by
  have h := execNode_executor_post e he s o
  unfold routeByNextAction
  try dsimp only
  rw [h.1, if_neg]
  · rintro ⟨h1, h2⟩
    rw [h.2.1] at h1
    exact Node.pyName_ne_router e he h1.symm
  
theorem strToNode_router : strToNode "router" = some .router := by decide


/-- One executor step folds into the following router step. -/
theorem run_some_executor_step (e : Node) (he : e ≠ .router) (s1 : AgentState)
    (os : Nat → StepOracle) (k f2 : Nat)
    (hrec : (run f2 .router (execNode e s1 (os k)).1 os (k + 1)).isSome = true) :
    (run (f2 + 1) e s1 os k).isSome = true := by
  simp only [run]
  try dsimp only
  rw [routeByNextAction_after_executor e he s1 (os k)]
  try dsimp only
  rw [if_neg (by simp : ¬("router" = "end")), strToNode_router]
  try dsimp only
  obtain ⟨p, hp⟩ := Option.isSome_iff_exists.mp hrec
  rw [hp]
  rfl

theorem run_router_isSome :
    ∀ (n : Nat) (s : AgentState) (os : Nat → StepOracle) (k fuel : Nat),
    15 ≤ routerGateCount s + n → 2 * n + 1 ≤ fuel →
    (run fuel .router s os k).isSome = true := by
  intro n
  induction n with
  | zero =>
    intro s os k fuel hc hf
    obtain ⟨f, rfl⟩ : ∃ f, fuel = f + 1 := ⟨fuel - 1, by omega⟩
    have hg : (routerNode s (os k).routerO).1.nextAction = "end" :=
      routerNode_guard s (os k).routerO (by omega)
    simp only [run, execNode]
    try dsimp only
    rw [routeByNextAction_after_router, hg]
    simp
  | succ n ih =>
    intro s os k fuel hc hf
    obtain ⟨f, rfl⟩ : ∃ f, fuel = f + 1 := ⟨fuel - 1, by omega⟩
    simp only [run, execNode]
    try dsimp only
    rw [routeByNextAction_after_router]
    try dsimp only
    have hcount : routerGateCount (routerNode s (os k).routerO).1 =
        routerGateCount s + 1 := by
      have hh := (routerNode_preserved s (os k).routerO).2.2.2.2.2.1
      simp only [routerGateCount, hh]
      simp [List.count_append]
    rcases routerNode_nextAction_cases s (os k).routerO with h | h | h | h | h
    all_goals rw [h]
    · simp
    all_goals obtain ⟨f2, rfl⟩ : ∃ f2, f = f2 + 1 := ⟨f - 1, by omega⟩
    all_goals rw [if_neg (by simp)]
    · rw [show strToNode "respond" = some .respond from rfl]
      try dsimp only
      have hrec := run_some_executor_step .respond (by simp)
        (routerNode s (os k).routerO).1 os (k + 1) f2 ?_
      · obtain ⟨p, hp⟩ := Option.isSome_iff_exists.mp hrec
        rw [hp]
        rfl
      · apply ih
        · have hpres := (execNode_executor_post .respond (by simp)
            (routerNode s (os k).routerO).1 (os (k + 1))).2.2.1
          have h2 : routerGateCount
              (execNode Node.respond (routerNode s (os k).routerO).1 (os (k + 1))).1 =
              routerGateCount (routerNode s (os k).routerO).1 := by
            simp only [routerGateCount, hpres]
          rw [h2, hcount]
          omega
        · omega
    · rw [show strToNode "extract_keywords" = some .extractKeywords from rfl]
      try dsimp only
      have hrec := run_some_executor_step .extractKeywords (by simp)
        (routerNode s (os k).routerO).1 os (k + 1) f2 ?_
      · obtain ⟨p, hp⟩ := Option.isSome_iff_exists.mp hrec
        rw [hp]
        rfl
      · apply ih
        · have hpres := (execNode_executor_post .extractKeywords (by simp)
            (routerNode s (os k).routerO).1 (os (k + 1))).2.2.1
          have h2 : routerGateCount
              (execNode Node.extractKeywords (routerNode s (os k).routerO).1 (os (k + 1))).1 =
              routerGateCount (routerNode s (os k).routerO).1 := by
            simp only [routerGateCount, hpres]
          rw [h2, hcount]
          omega
        · omega
    · rw [show strToNode "retrieve" = some .retrieve from rfl]
      try dsimp only
      have hrec := run_some_executor_step .retrieve (by simp)
        (routerNode s (os k).routerO).1 os (k + 1) f2 ?_
      · obtain ⟨p, hp⟩ := Option.isSome_iff_exists.mp hrec
        rw [hp]
        rfl
      · apply ih
        · have hpres := (execNode_executor_post .retrieve (by simp)
            (routerNode s (os k).routerO).1 (os (k + 1))).2.2.1
          have h2 : routerGateCount
              (execNode Node.retrieve (routerNode s (os k).routerO).1 (os (k + 1))).1 =
              routerGateCount (routerNode s (os k).routerO).1 := by
            simp only [routerGateCount, hpres]
          rw [h2, hcount]
          omega
        · omega
    · rw [show strToNode "reflect" = some .reflect from rfl]
      try dsimp only
      have hrec := run_some_executor_step .reflect (by simp)
        (routerNode s (os k).routerO).1 os (k + 1) f2 ?_
      · obtain ⟨p, hp⟩ := Option.isSome_iff_exists.mp hrec
        rw [hp]
        rfl
      · apply ih
        · have hpres := (execNode_executor_post .reflect (by simp)
            (routerNode s (os k).routerO).1 (os (k + 1))).2.2.1
          have h2 : routerGateCount
              (execNode Node.reflect (routerNode s (os k).routerO).1 (os (k + 1))).1 =
              routerGateCount (routerNode s (os k).routerO).1 := by
            simp only [routerGateCount, hpres]
          rw [h2, hcount]
          omega
        · omega


theorem strToNode_eq_router (a : String) (h : strToNode a = some Node.router) :
    a = "router" := by
  unfold strToNode at h
  repeat' split at h
  all_goals simp_all

theorem run_zero (n : Node) (s : AgentState) (os : Nat → StepOracle) (k : Nat) :
    run 0 n s os k = none := rfl

/-- Unfolding of one router step of the execution loop. -/
theorem run_succ_router (f : Nat) (s : AgentState) (os : Nat → StepOracle)
    (k : Nat) :
    run (f + 1) .router s os k =
      (if (routerNode s (os k).routerO).1.nextAction = "end" then
        some ([⟨.router, (routerNode s (os k).routerO).1,
               (routerNode s (os k).routerO).2, []⟩],
              (routerNode s (os k).routerO).1)
      else
        match strToNode (routerNode s (os k).routerO).1.nextAction with
        | none => none
        | some next =>
          match run f next (routerNode s (os k).routerO).1 os (k + 1) with
          | none => none
          | some p =>
            some (⟨.router, (routerNode s (os k).routerO).1,
                   (routerNode s (os k).routerO).2, []⟩ :: p.1, p.2)) := by
  simp only [run, execNode]
  rw [routeByNextAction_after_router]

/-- Unfolding of one executor step of the execution loop: control always
returns to the router. -/
theorem run_succ_executor (e : Node) (he : e ≠ .router) (f : Nat)
    (s : AgentState) (os : Nat → StepOracle) (k : Nat) :
    run (f + 1) e s os k =
      (match run f .router (execNode e s (os k)).1 os (k + 1) with
       | none => none
       | some p =>
         some (⟨e, (execNode e s (os k)).1, (execNode e s (os k)).2.1,
                (execNode e s (os k)).2.2⟩ :: p.1, p.2)) := by
  simp only [run]
  rw [routeByNextAction_after_executor e he]
  have h1 : ¬((("router" : String)) = "end") := by simp
  rw [if_neg h1, strToNode_router]

/-! ### Run-level lemmas -/

theorem execNode_SInv (n : Node) (s : AgentState) (o : StepOracle)
    (h1 : s.iteration ≤ s.maxIterations) (h2 : s.retrievalAttempts ≤ 3) :
    (execNode n s o).1.iteration ≤ (execNode n s o).1.maxIterations ∧
    (execNode n s o).1.retrievalAttempts ≤ 3 := by
  by_cases he : n = .router
  · subst he
    have hp := routerNode_preserved s o.routerO
    unfold execNode
    dsimp only
    rw [hp.1, hp.2.1, hp.2.2.1]
    exact ⟨h1, h2⟩
  · have hp := execNode_executor_post n he s o
    have e1 := hp.2.2.2.1
    have e2 := hp.2.2.2.2.2.1
    have e3 := hp.2.2.2.2.2.2.1
    omega

theorem execNode_iter_mono (n : Node) (s : AgentState) (o : StepOracle) :
    s.iteration ≤ (execNode n s o).1.iteration := by
  by_cases he : n = .router
  · subst he
    have hp := routerNode_preserved s o.routerO
    unfold execNode
    dsimp only
    rw [hp.1]
  · exact (execNode_executor_post n he s o).2.2.2.2.1

theorem run_SInv :
    ∀ (fuel : Nat) (n : Node) (s : AgentState) (os : Nat → StepOracle) (k : Nat)
      (recs : List StepRecord) (fin : AgentState),
    run fuel n s os k = some (recs, fin) →
    s.iteration ≤ s.maxIterations → s.retrievalAttempts ≤ 3 →
    (∀ r ∈ recs, r.post.iteration ≤ r.post.maxIterations ∧
       r.post.retrievalAttempts ≤ 3) ∧
    fin.iteration ≤ fin.maxIterations ∧ fin.retrievalAttempts ≤ 3 := by
  intro fuel
  induction fuel with
  | zero =>
    intro n s os k recs fin h
    rw [run_zero] at h
    exact absurd h (by simp)
  | succ f ih =>
    intro n s os k recs fin h h1 h2
    have hstep := execNode_SInv n s (os k) h1 h2
    by_cases he : n = .router
    · subst he
      rw [run_succ_router] at h
      have hexec : (execNode .router s (os k)).1 = (routerNode s (os k).routerO).1 := rfl
      split at h
      · simp only [Option.some.injEq, Prod.mk.injEq] at h
        obtain ⟨hrecs, hfin⟩ := h
        subst hrecs
        subst hfin
        rw [hexec] at hstep
        refine ⟨?_, hstep⟩
        intro r hr
        simp at hr
        subst hr
        exact hstep
      · split at h
        · exact absurd h (by simp)
        · rename_i next hnext
          split at h
          · exact absurd h (by simp)
          · rename_i p hp
            simp only [Option.some.injEq, Prod.mk.injEq] at h
            obtain ⟨hrecs, hfin⟩ := h
            subst hrecs
            subst hfin
            rw [hexec] at hstep
            have hrec := ih next (routerNode s (os k).routerO).1 os (k + 1) p.1 p.2
              hp hstep.1 hstep.2
            refine ⟨?_, hrec.2⟩
            intro r hr
            rcases List.mem_cons.mp hr with rfl | hr2
            · exact hstep
            · exact hrec.1 r hr2
    · rw [run_succ_executor n he] at h
      split at h
      · exact absurd h (by simp)
      · rename_i p hp
        simp only [Option.some.injEq, Prod.mk.injEq] at h
        obtain ⟨hrecs, hfin⟩ := h
        subst hrecs
        subst hfin
        have hrec := ih .router (execNode n s (os k)).1 os (k + 1) p.1 p.2
          hp hstep.1 hstep.2
        refine ⟨?_, hrec.2⟩
        intro r hr
        rcases List.mem_cons.mp hr with rfl | hr2
        · exact hstep
        · exact hrec.1 r hr2

theorem run_head_node :
    ∀ (fuel : Nat) (n : Node) (s : AgentState) (os : Nat → StepOracle) (k : Nat)
      (recs : List StepRecord) (fin : AgentState),
    run fuel n s os k = some (recs, fin) →
    ∃ r t, recs = r :: t ∧ r.node = n ∧
      r.post = (execNode n s (os k)).1 ∧ r.calls = (execNode n s (os k)).2.1 := by
  intro fuel n s os k recs fin h
  rcases fuel with _ | f
  · rw [run_zero] at h
    exact absurd h (by simp)
  · by_cases he : n = .router
    · subst he
      rw [run_succ_router] at h
      split at h
      · simp only [Option.some.injEq, Prod.mk.injEq] at h
        obtain ⟨hrecs, hfin⟩ := h
        subst hrecs
        exact ⟨_, _, rfl, rfl, rfl, rfl⟩
      · split at h
        · exact absurd h (by simp)
        · split at h
          · exact absurd h (by simp)
          · simp only [Option.some.injEq, Prod.mk.injEq] at h
            obtain ⟨hrecs, hfin⟩ := h
            subst hrecs
            exact ⟨_, _, rfl, rfl, rfl, rfl⟩
    · rw [run_succ_executor n he] at h
      split at h
      · exact absurd h (by simp)
      · simp only [Option.some.injEq, Prod.mk.injEq] at h
        obtain ⟨hrecs, hfin⟩ := h
        subst hrecs
        exact ⟨_, _, rfl, rfl, rfl, rfl⟩

theorem run_alternation :
    ∀ (fuel : Nat) (n : Node) (s : AgentState) (os : Nat → StepOracle) (k : Nat)
      (recs : List StepRecord) (fin : AgentState),
    run fuel n s os k = some (recs, fin) →
    List.Chain' (fun a b => (a.node = Node.router ∧ b.node ≠ Node.router) ∨
      (a.node ≠ Node.router ∧ b.node = Node.router)) recs := by
  intro fuel
  induction fuel with
  | zero =>
    intro n s os k recs fin h
    rw [run_zero] at h
    exact absurd h (by simp)
  | succ f ih =>
    intro n s os k recs fin h
    by_cases he : n = .router
    · subst he
      rw [run_succ_router] at h
      split at h
      · simp only [Option.some.injEq, Prod.mk.injEq] at h
        obtain ⟨hrecs, hfin⟩ := h
        subst hrecs
        simp
      · split at h
        · exact absurd h (by simp)
        · rename_i next hnext
          split at h
          · exact absurd h (by simp)
          · rename_i p hp
            simp only [Option.some.injEq, Prod.mk.injEq] at h
            obtain ⟨hrecs, hfin⟩ := h
            subst hrecs
            have hchain := ih next (routerNode s (os k).routerO).1 os (k + 1)
              p.1 p.2 hp
            have hnr : next ≠ Node.router := by
              intro hcontra
              subst hcontra
              exact routerNode_nextAction_ne_router s (os k).routerO
                (strToNode_eq_router _ hnext)
            obtain ⟨r, t, hrt, hrnode, _, _⟩ := run_head_node f next
              (routerNode s (os k).routerO).1 os (k + 1) p.1 p.2 hp
            rw [hrt]
            rw [hrt] at hchain
            exact List.Chain'.cons (by left; exact ⟨rfl, by rw [hrnode]; exact hnr⟩)
              hchain
    · rw [run_succ_executor n he] at h
      split at h
      · exact absurd h (by simp)
      · rename_i p hp
        simp only [Option.some.injEq, Prod.mk.injEq] at h
        obtain ⟨hrecs, hfin⟩ := h
        subst hrecs
        have hchain := ih .router (execNode n s (os k)).1 os (k + 1) p.1 p.2 hp
        obtain ⟨r, t, hrt, hrnode, _, _⟩ := run_head_node f .router
          (execNode n s (os k)).1 os (k + 1) p.1 p.2 hp
        rw [hrt]
        rw [hrt] at hchain
        exact List.Chain'.cons (by right; exact ⟨he, hrnode⟩) hchain

theorem routerNode_no_retry (s : AgentState) (o : RouterOracle)
    (h : s.lastNode = "retrieve" →
      ((s.contextIsRelevant = true ∧ s.contextIsSufficient = true) ∨
       s.retrievalAttempts = 3)) :
    "retry" ∉ (routerNode s o).2 := by
  intro hmem
  obtain ⟨hl, hsuf, hatt⟩ := routerNode_retry_call s o hmem
  rcases h hl with ⟨hr, hs⟩ | ha
  · rw [hsuf] at hs
    exact Bool.false_ne_true hs
  · omega

theorem strToNode_pyName (a : String) (nd : Node) (h : strToNode a = some nd) :
    nd.pyName = a := by
  unfold strToNode at h
  repeat' split at h
  all_goals try (cases h)
  all_goals simp_all [Node.pyName]

theorem Node.pyName_mem (e : Node) (he : e ≠ .router) :
    e.pyName = "extract_keywords" ∨ e.pyName = "retrieve" ∨
    e.pyName = "respond" ∨ e.pyName = "reflect" := by
  cases e <;> simp_all [Node.pyName]


set_option maxHeartbeats 2000000 in
theorem run_after_retrieve :
    ∀ (fuel : Nat) (s : AgentState) (os : Nat → StepOracle) (k : Nat)
      (recs : List StepRecord) (fin : AgentState),
    run fuel .router s os k = some (recs, fin) →
    (s.lastNode = "" ∨ s.lastNode = "extract_keywords" ∨ s.lastNode = "retrieve" ∨
     s.lastNode = "respond" ∨ s.lastNode = "reflect") →
    routerGateCount s ≤ 15 →
    ((s.lastNode = "" ∨ s.lastNode = "retrieve" ∨ s.lastNode = "reflect") →
      routerGateCount s % 2 = 0) →
    ((s.lastNode = "extract_keywords" ∨ s.lastNode = "respond") →
      routerGateCount s % 2 = 1) →
    (s.lastNode = "retrieve" →
      ((s.contextIsRelevant = true ∧ s.contextIsSufficient = true) ∨
       s.retrievalAttempts = 3)) →
    (∀ r ∈ recs, "retry" ∉ r.calls) ∧
    List.Chain' (fun a b => a.node = Node.retrieve →
      (b.post.nextAction = "respond" ∧ b.calls = [])) recs := by
  intro fuel
  induction fuel using Nat.strong_induction_on with
  | _ fuel ih =>
  intro s os k recs fin h hlast hcountle heven hodd hflags
  rcases fuel with _ | f
  · rw [run_zero] at h
    exact absurd h (by simp)
  rw [run_succ_router] at h
  have hnoretry : "retry" ∉ (routerNode s (os k).routerO).2 :=
    routerNode_no_retry s (os k).routerO hflags
  split at h
  · simp only [Option.some.injEq, Prod.mk.injEq] at h
    obtain ⟨hrecs, hfin⟩ := h
    subst hrecs
    refine ⟨?_, by simp⟩
    intro r hr
    simp at hr
    subst hr
    exact hnoretry
  · rename_i hne
    split at h
    · exact absurd h (by simp)
    rename_i next hnext
    split at h
    · exact absurd h (by simp)
    rename_i p hp
    simp only [Option.some.injEq, Prod.mk.injEq] at h
    obtain ⟨hrecs, hfin⟩ := h
    subst hrecs
    have hcnt1 : routerGateCount (routerNode s (os k).routerO).1 =
        routerGateCount s + 1 := by
      have hh := (routerNode_preserved s (os k).routerO).2.2.2.2.2.1
      simp only [routerGateCount, hh]
      simp [List.count_append]
    have hlt : routerGateCount s < 15 :=
      routerNode_nonend_count s (os k).routerO hne
    have hnr : next ≠ Node.router := by
      intro hcontra
      subst hcontra
      exact routerNode_nextAction_ne_router s (os k).routerO
        (strToNode_eq_router _ hnext)
    have hna : (routerNode s (os k).routerO).1.nextAction = next.pyName :=
      (strToNode_pyName _ _ hnext).symm
    have hedges := routerNode_edges s (os k).routerO
    rw [hna] at hedges hne
    -- parity of the incoming count, by which executor follows
    have hparR : (next = .retrieve ∨ next = .reflect) →
        routerGateCount s % 2 = 1 := by
      rintro (rfl | rfl) <;> simp only [Node.pyName] at hedges hne <;>
        rcases hedges with hd | ⟨hl, hd⟩ | ⟨hl, hd⟩ | ⟨hl, hd⟩ | ⟨hl, hd⟩ |
          ⟨hl, hd⟩ <;> simp_all
    have hparE : (next = .extractKeywords ∨ next = .respond) →
        routerGateCount s % 2 = 0 := by
      rintro (rfl | rfl) <;> simp only [Node.pyName] at hedges hne <;>
        rcases hedges with hd | ⟨hl, hd⟩ | ⟨hl, hd⟩ | ⟨hl, hd⟩ | ⟨hl, hd⟩ |
          ⟨hl, hd⟩ <;> simp_all
    -- destruct the executor step
    rcases f with _ | f2
    · rw [run_zero] at hp
      exact absurd hp (by simp)
    rw [run_succ_executor next hnr] at hp
    split at hp
    · exact absurd hp (by simp)
    rename_i p2 hp2
    rcases p with ⟨pa, pb⟩
    simp only [Option.some.injEq, Prod.mk.injEq] at hp
    obtain ⟨hp1, hpfin⟩ := hp
    try dsimp only at hp1 hpfin
    subst hp1
    have hexecpost := execNode_executor_post next hnr
      (routerNode s (os k).routerO).1 (os (k + 1))
    have hcnt2 : routerGateCount
        (execNode next (routerNode s (os k).routerO).1 (os (k + 1))).1 =
        routerGateCount s + 1 := by
      have hh := hexecpost.2.2.1
      simp only [routerGateCount, hh]
      have h9 := hcnt1
      simp only [routerGateCount] at h9
      exact h9
    have hs2last := hexecpost.2.1
    -- invariant hypotheses for the recursive call
    have hl2 : (execNode next (routerNode s (os k).routerO).1 (os (k + 1))).1.lastNode = "" ∨
        (execNode next (routerNode s (os k).routerO).1 (os (k + 1))).1.lastNode = "extract_keywords" ∨
        (execNode next (routerNode s (os k).routerO).1 (os (k + 1))).1.lastNode = "retrieve" ∨
        (execNode next (routerNode s (os k).routerO).1 (os (k + 1))).1.lastNode = "respond" ∨
        (execNode next (routerNode s (os k).routerO).1 (os (k + 1))).1.lastNode = "reflect" := by
      rw [hs2last]
      rcases Node.pyName_mem next hnr with h9 | h9 | h9 | h9 <;> simp [h9]
    have hc2 : routerGateCount
        (execNode next (routerNode s (os k).routerO).1 (os (k + 1))).1 ≤ 15 := by
      rw [hcnt2]
      omega
    have heven2 : ((execNode next (routerNode s (os k).routerO).1 (os (k + 1))).1.lastNode = "" ∨
        (execNode next (routerNode s (os k).routerO).1 (os (k + 1))).1.lastNode = "retrieve" ∨
        (execNode next (routerNode s (os k).routerO).1 (os (k + 1))).1.lastNode = "reflect") →
        routerGateCount (execNode next (routerNode s (os k).routerO).1 (os (k + 1))).1 % 2 = 0 := by
      rw [hs2last, hcnt2]
      intro hcase
      have h9 : next = .retrieve ∨ next = .reflect := by
        cases next <;> simp_all [Node.pyName]
      have := hparR h9
      omega
    have hodd2 : ((execNode next (routerNode s (os k).routerO).1 (os (k + 1))).1.lastNode = "extract_keywords" ∨
        (execNode next (routerNode s (os k).routerO).1 (os (k + 1))).1.lastNode = "respond") →
        routerGateCount (execNode next (routerNode s (os k).routerO).1 (os (k + 1))).1 % 2 = 1 := by
      rw [hs2last, hcnt2]
      intro hcase
      have h9 : next = .extractKeywords ∨ next = .respond := by
        cases next <;> simp_all [Node.pyName]
      have := hparE h9
      omega
    have hflags2 : (execNode next (routerNode s (os k).routerO).1 (os (k + 1))).1.lastNode = "retrieve" →
        (((execNode next (routerNode s (os k).routerO).1 (os (k + 1))).1.contextIsRelevant = true ∧
          (execNode next (routerNode s (os k).routerO).1 (os (k + 1))).1.contextIsSufficient = true) ∨
         (execNode next (routerNode s (os k).routerO).1 (os (k + 1))).1.retrievalAttempts = 3) := by
      rw [hs2last]
      intro hcase
      have h9 : next = .retrieve := by
        cases next <;> simp_all [Node.pyName]
      subst h9
      exact retrieveNode_post (routerNode s (os k).routerO).1 (os (k + 1)).retrieveO
    have hihres := ih f2 (by omega)
      (execNode next (routerNode s (os k).routerO).1 (os (k + 1))).1 os (k + 2)
      p2.1 p2.2 hp2 hl2 hc2 heven2 hodd2 hflags2
    -- head of the continuation
    obtain ⟨recR2, t2, hrt2, hrn2, hrpost2, hrcalls2⟩ := run_head_node f2 .router
      (execNode next (routerNode s (os k).routerO).1 (os (k + 1))).1 os (k + 2)
      p2.1 p2.2 hp2
    -- the after-retrieve router behavior, needed when next = retrieve
    have hafter : next = Node.retrieve →
        recR2.post.nextAction = "respond" ∧ recR2.calls = [] := by
      intro h9
      subst h9
      have hpar := hparR (Or.inl rfl)
      have hcl : routerGateCount
          (execNode Node.retrieve (routerNode s (os k).routerO).1 (os (k + 1))).1 < 15 := by
        rw [hcnt2]
        omega
      have hfl := hflags2 (by rw [hs2last]; rfl)
      have hres := routerNode_after_retrieve
        (execNode Node.retrieve (routerNode s (os k).routerO).1 (os (k + 1))).1
        ((os (k + 2)).routerO) (by rw [hs2last]; rfl) hcl hfl
      constructor
      · rw [hrpost2]
        exact hres.1
      · rw [hrcalls2]
        exact hres.2
    constructor
    · intro r hr
      rcases List.mem_cons.mp hr with rfl | hr2
      · exact hnoretry
      rcases List.mem_cons.mp hr2 with rfl | hr3
      · dsimp only
        rw [hexecpost.2.2.2.2.2.2.2]
        simp
      · exact hihres.1 r hr3
    · rw [List.chain'_cons']
      constructor
      · intro y hy
        simp at hy
        subst hy
        intro hcon
        simp at hcon
      rw [List.chain'_cons']
      constructor
      · intro y hy
        rw [hrt2] at hy
        simp at hy
        subst hy
        intro hcon
        dsimp only at hcon
        have h9 : next = Node.retrieve := hcon
        exact hafter h9
      · exact hihres.2

/-- An entry-gate rejection by the relevance check is the whole session. -/
theorem runSession_irrelevant (q m : String) (os : Nat → StepOracle)
    (h : relevanceVerdictIrrelevant (os 0).routerO.relevanceResp = true) :
    runSession q m os = some
      ([⟨.router, exampleRefusalFinal q m irrelevantRefusal, ["relevance"], []⟩],
       exampleRefusalFinal q m irrelevantRefusal) := by
  have hE := routerNode_entry_irrelevant (initialState q m) (os 0).routerO rfl
    (by simp [routerGateCount, initialState]) h
  show run (49 + 1) .router (initialState q m) os 0 = _
  rw [run_succ_router, hE]
  simp [initialState, exampleRefusalFinal]

/-- An entry-gate rejection by the safety check is the whole session. -/
theorem runSession_harmful (q m : String) (os : Nat → StepOracle)
    (hrel : relevanceVerdictIrrelevant (os 0).routerO.relevanceResp = false)
    (h : safetyVerdictHarmful (os 0).routerO.safetyResp = true) :
    runSession q m os = some
      ([⟨.router, exampleRefusalFinal q m harmfulRefusal,
         ["relevance", "safety"], []⟩],
       exampleRefusalFinal q m harmfulRefusal) := by
  have hE := routerNode_entry_harmful (initialState q m) (os 0).routerO rfl
    (by simp [routerGateCount, initialState]) hrel h
  show run (49 + 1) .router (initialState q m) os 0 = _
  rw [run_succ_router, hE]
  simp [initialState, exampleRefusalFinal]

/-! ### Claims -/

/-- C1: for every question and every sequence of Oracle responses
(adversarial ones included) the session terminates: the router forces
`next_action = end` once the count of `"router"` entries in `node_history`
exceeds 15, and within the orchestration ceiling of 50 step transitions
(`run` with fuel 50) every session reaches END. -/
theorem claim_C1 :
    (∀ (s : AgentState) (o : RouterOracle),
      15 < ((routerNode s o).1.nodeHistory.count "router") →
      (routerNode s o).1.nextAction = "end") ∧
    (∀ (q m : String) (os : Nat → StepOracle),
      (runSession q m os).isSome = true) := by
  constructor
  · intro s o hcount
    apply routerNode_guard
    have hh := (routerNode_preserved s o).2.2.2.2.2.1
    rw [hh] at hcount
    simp [List.count_append] at hcount
    simp only [routerGateCount]
    omega
  · intro q m os
    exact run_router_isSome 15 (initialState q m) os 0 50
      (by simp [routerGateCount, initialState]) (by omega)

/-- C1 witness: with 16 router entries already in the history the guard
forces `end`, and a concrete session with all-raising oracles terminates. -/
theorem claim_C1_witness :
    (routerNode exampleGuardState exampleRouterOracleNone).1.nextAction = "end" ∧
    (runSession "q" "offline"
      (fun _ => exampleEntryOracle none none)).isSome = true :=
  ⟨claim_C1.1 exampleGuardState exampleRouterOracleNone (by decide),
   claim_C1.2 "q" "offline" (fun _ => exampleEntryOracle none none)⟩

/-- C2: a fixed irrelevant (or relevance-passing but unsafe) entry verdict
makes the router, at entry, write the fixed refusal answer, set
`skip_retrieval = true` and emit `next_action = end`; the session consists
of that single router step, so the retrieve step never runs and no
retrieval call is made. -/
theorem claim_C2 (q m : String) (os : Nat → StepOracle)
    (recs : List StepRecord) (fin : AgentState)
    (hverdict : relevanceVerdictIrrelevant (os 0).routerO.relevanceResp = true ∨
      (relevanceVerdictIrrelevant (os 0).routerO.relevanceResp = false ∧
       safetyVerdictHarmful (os 0).routerO.safetyResp = true))
    (hrun : runSession q m os = some (recs, fin)) :
    (fin.answer = irrelevantRefusal ∨ fin.answer = harmfulRefusal) ∧
    fin.skipRetrieval = true ∧ fin.nextAction = "end" ∧
    recs.map StepRecord.node = [Node.router] ∧
    (∀ r ∈ recs, r.node ≠ Node.retrieve ∧ r.retEvents = []) := by
  rcases hverdict with h | ⟨hrel, h⟩
  · rw [runSession_irrelevant q m os h] at hrun
    simp only [Option.some.injEq, Prod.mk.injEq] at hrun
    obtain ⟨h1, h2⟩ := hrun
    subst h1
    subst h2
    refine ⟨Or.inl rfl, rfl, rfl, rfl, ?_⟩
    intro r hr
    simp at hr
    subst hr
    exact ⟨by simp, rfl⟩
  · rw [runSession_harmful q m os hrel h] at hrun
    simp only [Option.some.injEq, Prod.mk.injEq] at hrun
    obtain ⟨h1, h2⟩ := hrun
    subst h1
    subst h2
    refine ⟨Or.inr rfl, rfl, rfl, rfl, ?_⟩
    intro r hr
    simp at hr
    subst hr
    exact ⟨by simp, rfl⟩

/-- C2 witness: a concrete session whose relevance verdict is
`IRRELEVANT`. -/
theorem claim_C2_witness :
    ((exampleRefusalFinal "What is the weather" "offline" irrelevantRefusal).answer =
        irrelevantRefusal ∨
     (exampleRefusalFinal "What is the weather" "offline" irrelevantRefusal).answer =
        harmfulRefusal) ∧
    (exampleRefusalFinal "What is the weather" "offline" irrelevantRefusal).skipRetrieval = true ∧
    (exampleRefusalFinal "What is the weather" "offline" irrelevantRefusal).nextAction = "end" ∧
    ([exampleRefusalRecord "What is the weather" "offline" irrelevantRefusal
        ["relevance"]].map StepRecord.node = [Node.router]) ∧
    ((exampleRefusalRecord "What is the weather" "offline" irrelevantRefusal
        ["relevance"]).node ≠ Node.retrieve ∧
     (exampleRefusalRecord "What is the weather" "offline" irrelevantRefusal
        ["relevance"]).retEvents = []) := by
  have h := claim_C2 "What is the weather" "offline"
    (fun _ => exampleEntryOracle (some "IRRELEVANT") none)
    [exampleRefusalRecord "What is the weather" "offline" irrelevantRefusal
      ["relevance"]]
    (exampleRefusalFinal "What is the weather" "offline" irrelevantRefusal)
    (Or.inl (by decide)) rfl
  exact ⟨h.1, h.2.1, h.2.2.1, h.2.2.2.1,
    h.2.2.2.2 _ (by simp)⟩

/-- C3: after a retrieve step (guard untripped): good context quality means
`respond`; insufficient context with fewer than 2 attempts consults the
retry Oracle and goes to `extract_keywords` on a retry verdict, `respond`
otherwise (a raising call counts as no retry verdict); every other case
means `respond` with no consult. -/
theorem claim_C3 (s : AgentState) (o : RouterOracle)
    (h1 : s.lastNode = "retrieve") (hg : routerGateCount s < 15) :
    ((s.contextIsSufficient = true ∧ s.contextIsRelevant = true) →
      (routerNode s o).1.nextAction = "respond") ∧
    ((s.contextIsSufficient = false ∧ s.retrievalAttempts < 2) →
      ((routerNode s o).2 = ["retry"] ∧
       (retryVerdict o.retryResp = true →
         (routerNode s o).1.nextAction = "extract_keywords") ∧
       (retryVerdict o.retryResp = false →
         (routerNode s o).1.nextAction = "respond"))) ∧
    (¬(s.contextIsSufficient = true ∧ s.contextIsRelevant = true) →
     ¬(s.contextIsSufficient = false ∧ s.retrievalAttempts < 2) →
      ((routerNode s o).1.nextAction = "respond" ∧ (routerNode s o).2 = [])) := by
  unfold routerNode
  dsimp only
  split
  · rename_i hc
    exfalso
    simp only [routerGateCount] at hg
    simp [List.count_append] at hc
    omega
  · simp only [h1]
    repeat' split
    all_goals simp_all

/-- C3 witness: good context quality at a concrete state yields
`respond`. -/
theorem claim_C3_witness :
    (routerNode exampleRetrieveEntryState exampleRouterOracleNone).1.nextAction =
      "respond" :=
  (claim_C3 exampleRetrieveEntryState exampleRouterOracleNone rfl
    (by decide)).1 ⟨rfl, rfl⟩

/-- C4: the reflect step sets `needs_refinement = true`, increments
`iteration` by exactly one and stores the suggestions exactly when the
quality score is below 7 with iterations remaining; otherwise — threshold
met, iterations exhausted, or the scoring call raising — it sets
`needs_refinement = false` and leaves `iteration` unchanged. -/
theorem claim_C4 (s : AgentState) :
    (∀ (q : Nat) (sg : String), q < 7 → s.iteration < s.maxIterations →
      (reflectNode s (.ok q sg)).needsRefinement = true ∧
      (reflectNode s (.ok q sg)).iteration = s.iteration + 1 ∧
      (reflectNode s (.ok q sg)).refinementNotes = sg) ∧
    (∀ (q : Nat) (sg : String), ¬(q < 7 ∧ s.iteration < s.maxIterations) →
      (reflectNode s (.ok q sg)).needsRefinement = false ∧
      (reflectNode s (.ok q sg)).iteration = s.iteration) ∧
    ((reflectNode s .err).needsRefinement = false ∧
     (reflectNode s .err).iteration = s.iteration) := by
  refine ⟨?_, ?_, ?_⟩
  · intro q sg hq hi
    have h := reflectNode_ok_lt s q sg hq hi
    exact ⟨h.1, h.2.1, h.2.2.1⟩
  · intro q sg hn
    have h := reflectNode_ok_ge s q sg hn
    exact ⟨h.1, h.2.1⟩
  · have h := reflectNode_err s
    exact ⟨h.1, h.2.1⟩

/-- C4 witness: score 5 with iterations remaining refines at a concrete
state. -/
theorem claim_C4_witness :
    (reflectNode (initialState "q" "offline") (.ok 5 "add examples")).needsRefinement = true ∧
    (reflectNode (initialState "q" "offline") (.ok 5 "add examples")).iteration =
      (initialState "q" "offline").iteration + 1 ∧
    (reflectNode (initialState "q" "offline") (.ok 5 "add examples")).refinementNotes =
      "add examples" :=
  (claim_C4 (initialState "q" "offline")).1 5 "add examples" (by decide) (by decide)

/-- C5 counterexample: at entry the first Oracle call the router makes is
the relevance check, not the safety check. -/
theorem claim_C5_counterexample :
    ((routerNode (initialState "How to use LCEL?" "offline")
        ⟨some "RELEVANT", some "SAFE", some "RETRIEVE", none, none⟩).2.head? =
      some "relevance") ∧
    ((routerNode (initialState "How to use LCEL?" "offline")
        ⟨some "RELEVANT", some "SAFE", some "RETRIEVE", none, none⟩).2.head? ≠
      some "safety") := by
  refine ⟨by decide, by decide⟩

/-- C5 (amended): at entry (`last_node` empty, guard untripped) the router
runs the relevance check first, then the safety check, then the
knowledge-vs-retrieval decision, in that order, each gate short-circuiting
the rest. -/
theorem claim_C5 (s : AgentState) (o : RouterOracle)
    (h0 : s.lastNode = "") (hg : routerGateCount s < 15) :
    (routerNode s o).2 = ["relevance"] ∨
    (routerNode s o).2 = ["relevance", "safety"] ∨
    (routerNode s o).2 = ["relevance", "safety", "trivial"] :=
  routerNode_entry_calls s o h0 hg

/-- C5 witness: the call order at a concrete entry state. -/
theorem claim_C5_witness :
    (routerNode (initialState "q" "offline") exampleRouterOracleNone).2 =
      ["relevance"] ∨
    (routerNode (initialState "q" "offline") exampleRouterOracleNone).2 =
      ["relevance", "safety"] ∨
    (routerNode (initialState "q" "offline") exampleRouterOracleNone).2 =
      ["relevance", "safety", "trivial"] :=
  claim_C5 (initialState "q" "offline") exampleRouterOracleNone rfl (by decide)

/-- C6: in every reachable state of a session `iteration ≤ max_iterations`
and `retrieval_attempts ≤ 3`; no step ever decreases `iteration`; and a
single retrieve invocation never commits more than 3 attempts. -/
theorem claim_C6 :
    (∀ (q m : String) (os : Nat → StepOracle) (recs : List StepRecord)
       (fin : AgentState),
      runSession q m os = some (recs, fin) →
      ∀ r ∈ recs, r.post.iteration ≤ r.post.maxIterations ∧
        r.post.retrievalAttempts ≤ 3) ∧
    (∀ (n : Node) (s : AgentState) (o : StepOracle),
      s.iteration ≤ (execNode n s o).1.iteration) ∧
    (∀ (s : AgentState) (oracle : Nat → AttemptOutcome),
      (retrieveNode s oracle).1.retrievalAttempts ≤ 3) := by
  refine ⟨?_, execNode_iter_mono, retrieveNode_attempts_le⟩
  intro q m os recs fin h
  exact (run_SInv 50 .router (initialState q m) os 0 recs fin h
    (by simp [initialState]) (by simp [initialState])).1

/-- C6 witness: the invariant at the single record of a concrete
session. -/
theorem claim_C6_witness :
    (exampleRefusalRecord "What is the weather" "offline" irrelevantRefusal
      ["relevance"]).post.iteration ≤
    (exampleRefusalRecord "What is the weather" "offline" irrelevantRefusal
      ["relevance"]).post.maxIterations ∧
    (exampleRefusalRecord "What is the weather" "offline" irrelevantRefusal
      ["relevance"]).post.retrievalAttempts ≤ 3 :=
  claim_C6.1 "What is the weather" "offline"
    (fun _ => exampleEntryOracle (some "IRRELEVANT") none)
    [exampleRefusalRecord "What is the weather" "offline" irrelevantRefusal
      ["relevance"]]
    (exampleRefusalFinal "What is the weather" "offline" irrelevantRefusal)
    rfl
    (exampleRefusalRecord "What is the weather" "offline" irrelevantRefusal
      ["relevance"])
    (by simp)

/-- C7 counterexample: attempts 1 and 2 complete without raising (they only
fail the quality check), attempt 3 raises — yet the code still writes the
error sentinel, so the sentinel is not reserved for the all-attempts-raised
case and the last retrieved context is discarded. -/
theorem claim_C7_counterexample :
    (retrieveNode (initialState "q" "offline") exampleC7Oracle).1.context =
      retrieveErrorSentinel ∧
    exampleC7Oracle 1 ≠ AttemptOutcome.err ∧
    exampleC7Oracle 2 ≠ AttemptOutcome.err := by
  refine ⟨by decide, by decide, by decide⟩

/-- C7 (amended): on exhaustion the retrieve step commits the final
attempt's outcome only: if the third attempt raised, the context becomes
the error sentinel with both flags false — even when earlier attempts
retrieved context without raising; if the third attempt completed, its
context and its validation flags are committed.  `retrieval_attempts` is 3
and control returns to the router in both cases. -/
theorem claim_C7 :
    (∀ (s : AgentState) (oracle : Nat → AttemptOutcome),
      successfulOutcome (oracle 1) = false →
      successfulOutcome (oracle 2) = false →
      oracle 3 = .err →
      (retrieveNode s oracle).1.context = retrieveErrorSentinel ∧
      (retrieveNode s oracle).1.contextIsRelevant = false ∧
      (retrieveNode s oracle).1.contextIsSufficient = false ∧
      (retrieveNode s oracle).1.retrievalAttempts = 3 ∧
      (retrieveNode s oracle).1.nextAction = "router") ∧
    (∀ (s : AgentState) (oracle : Nat → AttemptOutcome) (c3 : String)
       (v3 : ValidationResult) (rf3 : Option String),
      successfulOutcome (oracle 1) = false →
      successfulOutcome (oracle 2) = false →
      oracle 3 = .ok c3 v3 rf3 →
      (v3.isRelevant && v3.isSufficient) = false →
      (retrieveNode s oracle).1.context = c3 ∧
      (retrieveNode s oracle).1.contextIsRelevant = v3.isRelevant ∧
      (retrieveNode s oracle).1.contextIsSufficient = v3.isSufficient ∧
      (retrieveNode s oracle).1.retrievalAttempts = 3 ∧
      (retrieveNode s oracle).1.nextAction = "router") := by
  constructor
  · intro s oracle h1 h2 h3
    have h := retrieveNode_exhaust_err s oracle h1 h2 h3
    exact ⟨h.1, h.2.1, h.2.2.1, h.2.2.2, (retrieveNode_preserved s oracle).1⟩
  · intro s oracle c3 v3 rf3 h1 h2 h3 hf
    have h := retrieveNode_exhaust_ok s oracle c3 v3 rf3 h1 h2 h3 hf
    exact ⟨h.1, h.2.1, h.2.2.1, h.2.2.2, (retrieveNode_preserved s oracle).1⟩

/-- C7 witness: the amended behavior at the concrete oracle of the
counterexample. -/
theorem claim_C7_witness :
    (retrieveNode (initialState "q" "offline") exampleC7Oracle).1.context =
      retrieveErrorSentinel ∧
    (retrieveNode (initialState "q" "offline") exampleC7Oracle).1.contextIsRelevant = false ∧
    (retrieveNode (initialState "q" "offline") exampleC7Oracle).1.contextIsSufficient = false ∧
    (retrieveNode (initialState "q" "offline") exampleC7Oracle).1.retrievalAttempts = 3 ∧
    (retrieveNode (initialState "q" "offline") exampleC7Oracle).1.nextAction = "router" :=
  claim_C7.1 (initialState "q" "offline") exampleC7Oracle
    (by decide) (by decide) (by decide)

/-- C8: in web mode, when restricted attempt 1 completes but fails the
quality check, attempt 2 searches unrestricted with the original question
and no query refinement is issued for that transition (refine calls happen
only in the other failure cases). -/
theorem claim_C8 (s : AgentState) (oracle : Nat → AttemptOutcome)
    (c1 : String) (v1 : ValidationResult) (rf1 : Option String)
    (hm : s.mode = "online")
    (h1 : oracle 1 = .ok c1 v1 rf1)
    (hf : (v1.isRelevant && v1.isSufficient) = false) :
    (retrieveNode s oracle).2.take 2 =
      [RetEvent.search 1 s.question true (!s.extractedKeywords.isEmpty),
       RetEvent.search 2 s.question false false] ∧
    ∀ fb : String, RetEvent.refineQuery 1 fb ∉ (retrieveNode s oracle).2 :=
  retrieveNode_web_attempt2 s oracle c1 v1 rf1 hm h1 hf

/-- C8 witness: the two searches at a concrete online state. -/
theorem claim_C8_witness :
    (retrieveNode (initialState "q" "online") exampleC8Oracle).2.take 2 =
      [RetEvent.search 1 "q" true false, RetEvent.search 2 "q" false false] ∧
    RetEvent.refineQuery 1 "gap" ∉
      (retrieveNode (initialState "q" "online") exampleC8Oracle).2 :=
  ⟨(claim_C8 (initialState "q" "online") exampleC8Oracle "partial docs"
      ⟨true, false, "gap"⟩ (some "q2") rfl rfl (by decide)).1,
   (claim_C8 (initialState "q" "online") exampleC8Oracle "partial docs"
      ⟨true, false, "gap"⟩ (some "q2") rfl rfl (by decide)).2 "gap"⟩

/-- C9: the routing function diverts any declared self-loop
(`next_action = last_node`, nonempty) to `end`, and in every session the
executed nodes strictly alternate between the router and executor nodes, so
no executor node ever runs twice consecutively while the router is
re-entered after every executor step. -/
theorem claim_C9 :
    (∀ s : AgentState, s.nextAction = s.lastNode → s.nextAction ≠ "" →
      (routeByNextAction s).2 = "end") ∧
    (∀ (q m : String) (os : Nat → StepOracle) (recs : List StepRecord)
       (fin : AgentState),
      runSession q m os = some (recs, fin) →
      List.Chain' (fun a b => (a.node = Node.router ∧ b.node ≠ Node.router) ∨
        (a.node ≠ Node.router ∧ b.node = Node.router)) recs) := by
  constructor
  · intro s h1 h2
    unfold routeByNextAction
    dsimp only
    rw [if_pos ⟨h1, h2⟩]
  · intro q m os recs fin h
    exact run_alternation 50 .router (initialState q m) os 0 recs fin h

/-- C9 witness: a concrete declared self-loop routes to `end`, and a
concrete session trace alternates. -/
theorem claim_C9_witness :
    (routeByNextAction exampleSelfLoopState).2 = "end" ∧
    List.Chain' (fun a b => (a.node = Node.router ∧ b.node ≠ Node.router) ∨
      (a.node ≠ Node.router ∧ b.node = Node.router))
      [exampleRefusalRecord "What is the weather" "offline" irrelevantRefusal
        ["relevance"]] :=
  ⟨claim_C9.1 exampleSelfLoopState rfl (by decide),
   claim_C9.2 "What is the weather" "offline"
     (fun _ => exampleEntryOracle (some "IRRELEVANT") none)
     [exampleRefusalRecord "What is the weather" "offline" irrelevantRefusal
       ["relevance"]]
     (exampleRefusalFinal "What is the weather" "offline" irrelevantRefusal)
     rfl⟩

/-- C10: a completed retrieve step either commits both quality flags true
or commits `retrieval_attempts = 3`; consequently, in every session, the
router never consults the retry Oracle (no record carries a `"retry"`
call), and every step that immediately follows a retrieve step is a router
invocation that emits `respond` with no oracle consult. -/
theorem claim_C10 :
    (∀ (s : AgentState) (oracle : Nat → AttemptOutcome),
      ((retrieveNode s oracle).1.contextIsRelevant = true ∧
       (retrieveNode s oracle).1.contextIsSufficient = true) ∨
      (retrieveNode s oracle).1.retrievalAttempts = 3) ∧
    (∀ (q m : String) (os : Nat → StepOracle) (recs : List StepRecord)
       (fin : AgentState),
      runSession q m os = some (recs, fin) →
      (∀ r ∈ recs, "retry" ∉ r.calls) ∧
      List.Chain' (fun a b => a.node = Node.retrieve →
        (b.post.nextAction = "respond" ∧ b.calls = [])) recs) := by
  refine ⟨retrieveNode_post, ?_⟩
  intro q m os recs fin h
  refine run_after_retrieve 50 (initialState q m) os 0 recs fin h
    (Or.inl rfl) (by simp [routerGateCount, initialState]) ?_ ?_ ?_
  · intro hcase
    simp [routerGateCount, initialState]
  · intro hcase
    exfalso
    simp [initialState] at hcase
  · intro hcase
    exfalso
    simp [initialState] at hcase

/-- C10 witness: the retrieve postcondition at a concrete oracle and the
no-retry property of a concrete session. -/
theorem claim_C10_witness :
    (((retrieveNode (initialState "q" "offline") exampleC8Oracle).1.contextIsRelevant = true ∧
      (retrieveNode (initialState "q" "offline") exampleC8Oracle).1.contextIsSufficient = true) ∨
     (retrieveNode (initialState "q" "offline") exampleC8Oracle).1.retrievalAttempts = 3) ∧
    "retry" ∉ (exampleRefusalRecord "What is the weather" "offline"
      irrelevantRefusal ["relevance"]).calls :=
  ⟨claim_C10.1 (initialState "q" "offline") exampleC8Oracle,
   (claim_C10.2 "What is the weather" "offline"
     (fun _ => exampleEntryOracle (some "IRRELEVANT") none)
     [exampleRefusalRecord "What is the weather" "offline" irrelevantRefusal
       ["relevance"]]
     (exampleRefusalFinal "What is the weather" "offline" irrelevantRefusal)
     rfl).1
     (exampleRefusalRecord "What is the weather" "offline" irrelevantRefusal
       ["relevance"])
     (by simp)⟩

end LanggraphHelper
